import Mathlib

/-!
Verification of the nhk-api client library (`src/nhk/client.py`).

The repository ships a single source file, `client.py`, holding two client
classes, `ProgramGuide` (API v1) and `ProgramGuideV3` (API v3).  The code
tables (`AreaChoices`, `ServiceChoices`, `GenreChoices`) and their `detect`
resolver live in modules (`area.py`, `service.py`, `genre.py`) that are not
part of the sources available here; their behaviour is modelled from the
specification (marked `Modelled from the spec:` below).  Everything else is
a direct shallow embedding of `client.py`.

An HTTP request is modelled as the pair of the URL string handed to
`requests.get` and the `params` dictionary (an ordered association list, as
Python dicts preserve insertion order).  Each client method is embedded as a
pure function returning the (unchanged) client together with either the
request it issues or the resolution error that aborts it before any I/O.
-/

/-- Modelled from the spec: a code-table entry
`{code: string, name: string, aliases: set<string>}` (spec §3).  The genre
major/minor fields are not needed by any claim and are omitted. -/
structure CodeEntry where
  code : String
  name : String
  aliases : List String
deriving DecidableEq, Repr

/-- Modelled from the spec: `UnknownIdentifier{dimension, input}` (spec §7),
the error raised by the resolver when a string matches no code, name or
alias of the table. -/
structure UnknownIdentifier where
  dimension : String
  input : String
deriving DecidableEq, Repr

/-- Modelled from the spec: a `CodeTable` is an ordered collection of
entries for one dimension (spec §3); the dimension name is carried so the
resolver can report it in `UnknownIdentifier`. -/
structure CodeTable where
  dimension : String
  entries : List CodeEntry
deriving DecidableEq, Repr

/-- An entry matches a text by name or alias (spec §4.1
`findByNameOrAlias`): case-sensitive exact match. -/
def matchesNameOrAlias (e : CodeEntry) (input : String) : Bool :=
  e.name == input || e.aliases.contains input

/-- Modelled from the spec: the resolver `detect(table, input)` (spec §4.2).
(1) if `input` exactly matches a known code, return that entry; (2) else if
it exactly matches a known name or alias, return that entry; (3) else fail
with `UnknownIdentifier` carrying the dimension name and the input. -/
def CodeTable.detect (t : CodeTable) (input : String) :
    Except UnknownIdentifier CodeEntry :=
  match t.entries.find? (fun e => e.code == input) with
  | some e => .ok e
  | none =>
    match t.entries.find? (fun e => matchesNameOrAlias e input) with
    | some e => .ok e
    | none => .error ⟨t.dimension, input⟩

/-- Modelled from the spec: the Area code table (spec §4.1: "Area codes
130–940 for Japanese prefectures/regions"; the sample code `130` is used in
the spec's testable properties).  Representative entries only. -/
def AreaChoices : CodeTable :=
  ⟨"area",
   [⟨"130", "Tokyo", ["東京"]⟩,
    ⟨"140", "Kanagawa", ["神奈川"]⟩,
    ⟨"270", "Osaka", ["大阪"]⟩]⟩

/-- Modelled from the spec: the Service code table (spec §4.1: "Service
codes such as terrestrial/BS/radio stations"; samples `g1` and `n1` appear
in the spec's testable properties).  Representative entries only. -/
def ServiceChoices : CodeTable :=
  ⟨"service",
   [⟨"g1", "NHK General 1", ["ＮＨＫ総合１"]⟩,
    ⟨"s1", "NHK BS1", []⟩,
    ⟨"r1", "NHK Radio 1", ["ラジオ第1"]⟩,
    ⟨"n1", "NHK Net Radio 1", []⟩]⟩

/-- Modelled from the spec: the Genre code table (spec §4.1: "Genre codes
as a 2-digit major + 2-digit minor pair under categories like News, Sports,
Drama").  Representative entries only. -/
def GenreChoices : CodeTable :=
  ⟨"genre",
   [⟨"0000", "News", ["ニュース"]⟩,
    ⟨"0100", "Sports", ["スポーツ"]⟩,
    ⟨"0300", "Drama", ["ドラマ"]⟩]⟩

/-- A calendar date, the argument type of the `date` parameters
(`datetime.date` in the source). -/
structure Date where
  year : Nat
  month : Nat
  day : Nat
deriving DecidableEq, Repr

/-- A run of `n` zero characters, for `strftime`-style zero padding. -/
def zeros (n : Nat) : String :=
  String.mk (List.replicate n '0')

/-- Zero-pad the decimal representation of `n` to width `w`, as `strftime`
does for `%Y` (w = 4), `%m` and `%d` (w = 2). -/
def padZero (w : Nat) (n : Nat) : String :=
  zeros (w - (toString n).length) ++ toString n

/-- `date.strftime('%Y-%m-%d')`: the `_to_ymd` helper shared by both client
classes (client.py lines 27–28 and 133–134). -/
def to_ymd (d : Date) : String :=
  padZero 4 d.year ++ "-" ++ padZero 2 d.month ++ "-" ++ padZero 2 d.day

/-- `'/'.join(args)`: Python's string join with separator `/`. -/
def joinSlash : List String → String
  | [] => ""
  | [x] => x
  | x :: xs => x ++ "/" ++ joinSlash xs

/-- The request handed to `requests.get(url, params=payload)`: the URL
string and the `params` dictionary as an ordered association list. -/
structure Request where
  url : String
  params : List (String × String)
deriving DecidableEq, Repr

deriving instance DecidableEq for Except

/-- The requests a call actually issues: one GET on success, none when the
resolver aborts the call before the network step. -/
def issuedRequests (r : Except UnknownIdentifier Request) : List Request :=
  match r with
  | .ok req => [req]
  | .error _ => []

/-- `Except.isOk`, spelled out for the embedding. -/
def exceptOk (r : Except UnknownIdentifier Request) : Bool :=
  match r with
  | .ok _ => true
  | .error _ => false

/-- The v1 client `ProgramGuide` (client.py lines 8–25): it stores the API
key and the base URL computed in `__init__`. -/
structure ProgramGuide where
  api_key : String
  url_base : String
deriving DecidableEq, Repr

/-- `ProgramGuide.__init__(api_key, domain, version, secure)` (client.py
lines 9–25): `scheme = 'https' if secure else 'http'`;
`url_base = '{scheme}://{domain}/{version}/'`. -/
def ProgramGuide.make (api_key : String) (domain : String)
    (version : String) (secure : Bool) : ProgramGuide :=
  ⟨api_key, (if secure then "https" else "http") ++ "://" ++ domain
      ++ "/" ++ version ++ "/"⟩

/-- `ProgramGuide(api_key=k)` with the default arguments
`domain='api.nhk.or.jp'`, `version='v1'`, `secure=False`. -/
def ProgramGuide.default (api_key : String) : ProgramGuide :=
  ProgramGuide.make api_key "api.nhk.or.jp" "v1" false

/-- `ProgramGuide._build_url(*args)` (client.py lines 30–34):
`url_base + '/'.join(args) + '.json'`. -/
def ProgramGuide.build_url (self : ProgramGuide) (args : List String) :
    String :=
  self.url_base ++ joinSlash args ++ ".json"

/-- `ProgramGuide.pg_list(area, service, date)` (client.py lines 36–53). -/
def ProgramGuide.pg_list (self : ProgramGuide) (area service : String)
    (date : Date) : ProgramGuide × Except UnknownIdentifier Request :=
  (self,
    match AreaChoices.detect area with
    | .error e => .error e
    | .ok a =>
      match ServiceChoices.detect service with
      | .error e => .error e
      | .ok s =>
        .ok ⟨self.build_url ["pg", "list", a.code, s.code, to_ymd date],
             [("key", self.api_key)]⟩)

/-- `ProgramGuide.pg_genre(area, service, genre, date)` (client.py lines
55–77). -/
def ProgramGuide.pg_genre (self : ProgramGuide) (area service genre : String)
    (date : Date) : ProgramGuide × Except UnknownIdentifier Request :=
  (self,
    match AreaChoices.detect area with
    | .error e => .error e
    | .ok a =>
      match ServiceChoices.detect service with
      | .error e => .error e
      | .ok s =>
        match GenreChoices.detect genre with
        | .error e => .error e
        | .ok g =>
          .ok ⟨self.build_url
                ["pg", "genre", a.code, s.code, g.code, to_ymd date],
              [("key", self.api_key)]⟩)

/-- `ProgramGuide.pg_info(area, service, program_id)` (client.py lines
79–97). -/
def ProgramGuide.pg_info (self : ProgramGuide) (area service program_id : String) :
    ProgramGuide × Except UnknownIdentifier Request :=
  (self,
    match AreaChoices.detect area with
    | .error e => .error e
    | .ok a =>
      match ServiceChoices.detect service with
      | .error e => .error e
      | .ok s =>
        .ok ⟨self.build_url ["pg", "info", a.code, s.code, program_id],
             [("key", self.api_key)]⟩)

/-- `ProgramGuide.pg_now(area, service)` (client.py lines 99–114). -/
def ProgramGuide.pg_now (self : ProgramGuide) (area service : String) :
    ProgramGuide × Except UnknownIdentifier Request :=
  (self,
    match AreaChoices.detect area with
    | .error e => .error e
    | .ok a =>
      match ServiceChoices.detect service with
      | .error e => .error e
      | .ok s =>
        .ok ⟨self.build_url ["pg", "now", a.code, s.code],
             [("key", self.api_key)]⟩)

/-- The v3 client `ProgramGuideV3` (client.py lines 117–131). -/
structure ProgramGuideV3 where
  api_key : String
  url_base : String
deriving DecidableEq, Repr

/-- `ProgramGuideV3.__init__(api_key, domain, secure)` (client.py lines
118–131): `scheme = 'https' if secure else 'http'`; the version segment is
the literal `'v3'`. -/
def ProgramGuideV3.make (api_key : String) (domain : String)
    (secure : Bool) : ProgramGuideV3 :=
  ⟨api_key, (if secure then "https" else "http") ++ "://" ++ domain
      ++ "/v3/"⟩

/-- `ProgramGuideV3(api_key=k)` with the default arguments
`domain='program-api.nhk.jp'`, `secure=True`. -/
def ProgramGuideV3.default (api_key : String) : ProgramGuideV3 :=
  ProgramGuideV3.make api_key "program-api.nhk.jp" true

/-- `ProgramGuideV3._build_url(api)` (client.py lines 136–140):
`url_base + api` (the `.json` suffix line is commented out). -/
def ProgramGuideV3.build_url (self : ProgramGuideV3) (api : String) : String :=
  self.url_base ++ api

/-- `ProgramGuideV3.pg_date_radio(area, service, date)` (client.py lines
142–164). -/
def ProgramGuideV3.pg_date_radio (self : ProgramGuideV3)
    (area service : String) (date : Date) :
    ProgramGuideV3 × Except UnknownIdentifier Request :=
  (self,
    match AreaChoices.detect area with
    | .error e => .error e
    | .ok a =>
      match ServiceChoices.detect service with
      | .error e => .error e
      | .ok s =>
        .ok ⟨self.build_url "papiPgDateRadio",
             [("service", s.code), ("area", a.code),
              ("date", to_ymd date), ("key", self.api_key)]⟩)

/-- `ProgramGuideV3.pg_genre_radio(area, service, genre, date)` (client.py
lines 166–193). -/
def ProgramGuideV3.pg_genre_radio (self : ProgramGuideV3)
    (area service genre : String) (date : Date) :
    ProgramGuideV3 × Except UnknownIdentifier Request :=
  (self,
    match AreaChoices.detect area with
    | .error e => .error e
    | .ok a =>
      match ServiceChoices.detect service with
      | .error e => .error e
      | .ok s =>
        match GenreChoices.detect genre with
        | .error e => .error e
        | .ok g =>
          .ok ⟨self.build_url "papiPgGenreRadio",
               [("service", s.code), ("area", a.code), ("genre", g.code),
                ("date", to_ymd date), ("key", self.api_key)]⟩)

/-- `ProgramGuideV3.pg_now_radio(area, service)` (client.py lines 195–214).
The endpoint name in the source is `'ppapiPgNowRadio'`, with a doubled
leading `p`. -/
def ProgramGuideV3.pg_now_radio (self : ProgramGuideV3)
    (area service : String) :
    ProgramGuideV3 × Except UnknownIdentifier Request :=
  (self,
    match AreaChoices.detect area with
    | .error e => .error e
    | .ok a =>
      match ServiceChoices.detect service with
      | .error e => .error e
      | .ok s =>
        .ok ⟨self.build_url "ppapiPgNowRadio",
             [("service", s.code), ("area", a.code),
              ("key", self.api_key)]⟩)

/-- `ProgramGuideV3.broadcast_event_radio(area, service, program_id)`
(client.py lines 216–239): resolves area and service, composes
`broadcast_event_id = '{service}-{area}-{program_id}'`, and sends it as the
`broadcastEventId` query parameter. -/
def ProgramGuideV3.broadcast_event_radio (self : ProgramGuideV3)
    (area service program_id : String) :
    ProgramGuideV3 × Except UnknownIdentifier Request :=
  (self,
    match AreaChoices.detect area with
    | .error e => .error e
    | .ok a =>
      match ServiceChoices.detect service with
      | .error e => .error e
      | .ok s =>
        .ok ⟨self.build_url "papiBroadcastEventRadio",
             [("broadcastEventId",
               s.code ++ "-" ++ a.code ++ "-" ++ program_id),
              ("key", self.api_key)]⟩)

/-- A test table in which the second entry's *name* (`"g1"`) coincides with
the first entry's *code*, exercising the resolver's code-before-name
precedence rule on a concrete instance. -/
def collisionTable : CodeTable :=
  ⟨"test", [⟨"g1", "General", []⟩, ⟨"g2", "g1", []⟩]⟩

lemma find_eq_some_of_unique {α : Type} (p : α → Bool) :
    ∀ (l : List α) (x : α), x ∈ l → p x = true →
      (∀ y ∈ l, p y = true → y = x) → l.find? p = some x
  | [], x, hx, _, _ => absurd hx (List.not_mem_nil x)
  | a :: as, x, hx, hpx, huniq => by
    by_cases hpa : p a = true
    · have hax : a = x := huniq a (List.mem_cons_self a as) hpa
      rw [List.find?_cons_of_pos _ hpa, hax]
    · have hx' : x ∈ as := by
        rcases List.mem_cons.mp hx with h | h
        · subst h; exact absurd hpx hpa
        · exact h
      rw [List.find?_cons_of_neg _ (by simpa using hpa)]
      exact find_eq_some_of_unique p as x hx' hpx
        (fun y hy hpy => huniq y (List.mem_cons_of_mem a hy) hpy)

/-- The resolver only ever fails with the table's dimension name and the
offending input, exactly as the spec's `UnknownIdentifier{dimension, input}`
prescribes. -/
lemma detect_error_shape (t : CodeTable) (input : String)
    (e : UnknownIdentifier) (h : t.detect input = .error e) :
    e = ⟨t.dimension, input⟩ := by
  unfold CodeTable.detect at h
  split at h
  · exact absurd h (by simp)
  · split at h
    · exact absurd h (by simp)
    · injection h with h
      exact h.symm

lemma issued_one (r : Except UnknownIdentifier Request)
    (h : exceptOk r = true) : (issuedRequests r).length = 1 := by
  cases r with
  | ok req => rfl
  | error e => exact absurd h (by simp [exceptOk])

lemma issued_nil (r : Except UnknownIdentifier Request)
    (e : UnknownIdentifier) (h : r = .error e) : issuedRequests r = [] := by
  rw [h]; rfl

/-- C2: for a V1 client constructed with defaults (domain `api.nhk.or.jp`,
version `v1`, secure = false) and API key `k`, `pg_list(area="130",
service="g1", date=2024-01-02)` issues exactly the request
`http://api.nhk.or.jp/v1/pg/list/130/g1/2024-01-02.json` with the single
query parameter `key = k`, and leaves the client unchanged. -/
theorem pg_list_default_exact_url (k : String) :
    (ProgramGuide.default k).pg_list "130" "g1" ⟨2024, 1, 2⟩ =
      (ProgramGuide.default k,
       .ok ⟨"http://api.nhk.or.jp/v1/pg/list/130/g1/2024-01-02.json",
            [("key", k)]⟩) := rfl

/-- C3: for a V3 client constructed with defaults and API key `k`,
`pg_date_radio(area="130", service="n1", date=2024-01-02)` requests the URL
`https://program-api.nhk.jp/v3/papiPgDateRadio` with exactly the query
parameters `service=n1`, `area=130`, `date=2024-01-02`, `key=k` (in the
source's dict insertion order), and leaves the client unchanged. -/
theorem pg_date_radio_default_exact_url (k : String) :
    (ProgramGuideV3.default k).pg_date_radio "130" "n1" ⟨2024, 1, 2⟩ =
      (ProgramGuideV3.default k,
       .ok ⟨"https://program-api.nhk.jp/v3/papiPgDateRadio",
            [("service", "n1"), ("area", "130"),
             ("date", "2024-01-02"), ("key", k)]⟩) := rfl

/-- C4 counterexample: the V3 constructor accepts `secure=False`, and the
resulting client's base URL then uses the `http` scheme, so the claim that
every construction of the V3 client uses `https` is false. -/
theorem v3_secure_false_counterexample :
    (ProgramGuideV3.make "k" "program-api.nhk.jp" false).url_base =
      "http://program-api.nhk.jp/v3/"
    ∧ (ProgramGuideV3.make "k" "program-api.nhk.jp" false).url_base ≠
        (ProgramGuideV3.default "k").url_base := by decide

/-- C4 amended: the V3 client *defaults* to the https scheme
(`secure=True` is only the default, not fixed) and always uses the fixed
version path segment `v3`: the default construction yields
`https://program-api.nhk.jp/v3/`, any construction with `secure=True`
yields `https://{domain}/v3/`, and one with `secure=False` yields
`http://{domain}/v3/`. -/
theorem v3_base_url_amended (k d : String) :
    (ProgramGuideV3.default k).url_base = "https://program-api.nhk.jp/v3/"
    ∧ (ProgramGuideV3.make k d true).url_base = "https://" ++ d ++ "/v3/"
    ∧ (ProgramGuideV3.make k d false).url_base = "http://" ++ d ++ "/v3/" :=
  ⟨rfl, rfl, rfl⟩

/-- C1 counterexample: `broadcast_event_radio` does not take a literal
broadcast-event identifier: it resolves its area and service arguments
(here given as the alias `東京` and the display name `NHK Radio 1`) and
composes the `broadcastEventId` value as `{service}-{area}-{program_id}`,
so the identifier sent (`r1-130-2024010212345`) is not the last argument
verbatim. -/
theorem broadcast_event_radio_counterexample :
    ((ProgramGuideV3.default "K").broadcast_event_radio
        "東京" "NHK Radio 1" "2024010212345").2 =
      .ok ⟨"https://program-api.nhk.jp/v3/papiBroadcastEventRadio",
           [("broadcastEventId", "r1-130-2024010212345"), ("key", "K")]⟩
    ∧ "r1-130-2024010212345" ≠ "2024010212345" := by decide

/-- C1 amended: `broadcast_event_radio(area, service, program_id)` resolves
its area and service arguments through the code tables and composes the
`broadcastEventId` query parameter as `{service}-{area}-{program_id}`
before issuing the request to `{url_base}papiBroadcastEventRadio`; it does
not accept a pre-composed identifier verbatim. -/
theorem broadcast_event_radio_composes (c : ProgramGuideV3)
    (area service program_id : String) (a s : CodeEntry)
    (ha : AreaChoices.detect area = .ok a)
    (hs : ServiceChoices.detect service = .ok s) :
    (c.broadcast_event_radio area service program_id).2 =
      .ok ⟨c.url_base ++ "papiBroadcastEventRadio",
           [("broadcastEventId",
             s.code ++ "-" ++ a.code ++ "-" ++ program_id),
            ("key", c.api_key)]⟩ := by
  simp [ProgramGuideV3.broadcast_event_radio, ProgramGuideV3.build_url,
        ha, hs]

/-- C1 witness: the amended statement at a concrete input. -/
theorem broadcast_event_radio_composes_witness :
    ((ProgramGuideV3.default "K").broadcast_event_radio "130" "r1" "X1").2 =
      .ok ⟨(ProgramGuideV3.default "K").url_base ++ "papiBroadcastEventRadio",
           [("broadcastEventId", "r1" ++ "-" ++ "130" ++ "-" ++ "X1"),
            ("key", "K")]⟩ :=
  broadcast_event_radio_composes (ProgramGuideV3.default "K") "130" "r1" "X1"
    ⟨"130", "Tokyo", ["東京"]⟩ ⟨"r1", "NHK Radio 1", ["ラジオ第1"]⟩
    (by decide) (by decide)

/-- C8: in the V1 client, `pg_info` builds a URL whose path segments after
area and service are exactly the program id (no date or genre segments),
and `pg_now` builds a URL with nothing after area and service; both paths
end with the `.json` suffix. -/
theorem pg_info_pg_now_paths (c : ProgramGuide)
    (area service program_id : String) (a s : CodeEntry)
    (ha : AreaChoices.detect area = .ok a)
    (hs : ServiceChoices.detect service = .ok s) :
    (c.pg_info area service program_id).2 =
      .ok ⟨c.url_base ++ "pg/info/" ++ a.code ++ "/" ++ s.code ++ "/"
            ++ program_id ++ ".json",
           [("key", c.api_key)]⟩
    ∧ (c.pg_now area service).2 =
      .ok ⟨c.url_base ++ "pg/now/" ++ a.code ++ "/" ++ s.code ++ ".json",
           [("key", c.api_key)]⟩ := by
  constructor
  · simp [ProgramGuide.pg_info, ha, hs, ProgramGuide.build_url, joinSlash,
          String.append_assoc]
    congr 1
  · simp [ProgramGuide.pg_now, ha, hs, ProgramGuide.build_url, joinSlash,
          String.append_assoc]
    congr 1

/-- C8 witness: the path shapes at a concrete input. -/
theorem pg_info_pg_now_paths_witness :
    ((ProgramGuide.default "K").pg_info "130" "g1" "P7").2 =
      .ok ⟨(ProgramGuide.default "K").url_base ++ "pg/info/" ++ "130"
            ++ "/" ++ "g1" ++ "/" ++ "P7" ++ ".json",
           [("key", "K")]⟩
    ∧ ((ProgramGuide.default "K").pg_now "130" "g1").2 =
      .ok ⟨(ProgramGuide.default "K").url_base ++ "pg/now/" ++ "130"
            ++ "/" ++ "g1" ++ ".json",
           [("key", "K")]⟩ :=
  pg_info_pg_now_paths (ProgramGuide.default "K") "130" "g1" "P7"
    ⟨"130", "Tokyo", ["東京"]⟩ ⟨"g1", "NHK General 1", ["ＮＨＫ総合１"]⟩
    (by decide) (by decide)

/-- C10: `pg_now_radio` requests `{url_base}ppapiPgNowRadio` — the endpoint
name with the doubled leading `p` found in the source, unlike the
`papi`-prefixed endpoints of the other V3 operations — with exactly the
query parameters `service`, `area` and `key`. -/
theorem pg_now_radio_endpoint (c : ProgramGuideV3) (area service : String)
    (a s : CodeEntry) (ha : AreaChoices.detect area = .ok a)
    (hs : ServiceChoices.detect service = .ok s) :
    (c.pg_now_radio area service).2 =
      .ok ⟨c.url_base ++ "ppapiPgNowRadio",
           [("service", s.code), ("area", a.code), ("key", c.api_key)]⟩ := by
  simp [ProgramGuideV3.pg_now_radio, ProgramGuideV3.build_url, ha, hs]

/-- C10 witness: the endpoint and parameters at a concrete input. -/
theorem pg_now_radio_endpoint_witness :
    ((ProgramGuideV3.default "K").pg_now_radio "130" "r1").2 =
      .ok ⟨(ProgramGuideV3.default "K").url_base ++ "ppapiPgNowRadio",
           [("service", "r1"), ("area", "130"), ("key", "K")]⟩ :=
  pg_now_radio_endpoint (ProgramGuideV3.default "K") "130" "r1"
    ⟨"130", "Tokyo", ["東京"]⟩ ⟨"r1", "NHK Radio 1", ["ラジオ第1"]⟩
    (by decide) (by decide)

/-- C5: for every client operation (V1 and V3), whenever the area, service
or genre argument fails to resolve, the call returns an `UnknownIdentifier`
carrying the dimension name and the offending input, and issues no GET
request.  The three conjuncts cover a failing area, a failing service
(with the area resolving) and a failing genre (with area and service
resolving), matching the source's sequential resolution order. -/
theorem resolution_failure_fails_fast (c1 : ProgramGuide)
    (c3 : ProgramGuideV3) (area service genre program_id : String)
    (d : Date) :
    (∀ ea : UnknownIdentifier, AreaChoices.detect area = .error ea →
      ea = ⟨"area", area⟩
      ∧ ((c1.pg_list area service d).2 = .error ea
          ∧ issuedRequests (c1.pg_list area service d).2 = [])
      ∧ ((c1.pg_genre area service genre d).2 = .error ea
          ∧ issuedRequests (c1.pg_genre area service genre d).2 = [])
      ∧ ((c1.pg_info area service program_id).2 = .error ea
          ∧ issuedRequests (c1.pg_info area service program_id).2 = [])
      ∧ ((c1.pg_now area service).2 = .error ea
          ∧ issuedRequests (c1.pg_now area service).2 = [])
      ∧ ((c3.pg_date_radio area service d).2 = .error ea
          ∧ issuedRequests (c3.pg_date_radio area service d).2 = [])
      ∧ ((c3.pg_genre_radio area service genre d).2 = .error ea
          ∧ issuedRequests (c3.pg_genre_radio area service genre d).2 = [])
      ∧ ((c3.pg_now_radio area service).2 = .error ea
          ∧ issuedRequests (c3.pg_now_radio area service).2 = [])
      ∧ ((c3.broadcast_event_radio area service program_id).2 = .error ea
          ∧ issuedRequests
              (c3.broadcast_event_radio area service program_id).2 = []))
    ∧ (∀ (a : CodeEntry) (es : UnknownIdentifier),
        AreaChoices.detect area = .ok a →
        ServiceChoices.detect service = .error es →
        es = ⟨"service", service⟩
        ∧ ((c1.pg_list area service d).2 = .error es
            ∧ issuedRequests (c1.pg_list area service d).2 = [])
        ∧ ((c1.pg_genre area service genre d).2 = .error es
            ∧ issuedRequests (c1.pg_genre area service genre d).2 = [])
        ∧ ((c1.pg_info area service program_id).2 = .error es
            ∧ issuedRequests (c1.pg_info area service program_id).2 = [])
        ∧ ((c1.pg_now area service).2 = .error es
            ∧ issuedRequests (c1.pg_now area service).2 = [])
        ∧ ((c3.pg_date_radio area service d).2 = .error es
            ∧ issuedRequests (c3.pg_date_radio area service d).2 = [])
        ∧ ((c3.pg_genre_radio area service genre d).2 = .error es
            ∧ issuedRequests (c3.pg_genre_radio area service genre d).2 = [])
        ∧ ((c3.pg_now_radio area service).2 = .error es
            ∧ issuedRequests (c3.pg_now_radio area service).2 = [])
        ∧ ((c3.broadcast_event_radio area service program_id).2 = .error es
            ∧ issuedRequests
                (c3.broadcast_event_radio area service program_id).2 = []))
    ∧ (∀ (a s : CodeEntry) (eg : UnknownIdentifier),
        AreaChoices.detect area = .ok a →
        ServiceChoices.detect service = .ok s →
        GenreChoices.detect genre = .error eg →
        eg = ⟨"genre", genre⟩
        ∧ ((c1.pg_genre area service genre d).2 = .error eg
            ∧ issuedRequests (c1.pg_genre area service genre d).2 = [])
        ∧ ((c3.pg_genre_radio area service genre d).2 = .error eg
            ∧ issuedRequests (c3.pg_genre_radio area service genre d).2 = [])) := by
  refine ⟨?_, ?_, ?_⟩
  · intro ea ha
    have h1 : (c1.pg_list area service d).2 = .error ea := by
      simp [ProgramGuide.pg_list, ha]
    have h2 : (c1.pg_genre area service genre d).2 = .error ea := by
      simp [ProgramGuide.pg_genre, ha]
    have h3 : (c1.pg_info area service program_id).2 = .error ea := by
      simp [ProgramGuide.pg_info, ha]
    have h4 : (c1.pg_now area service).2 = .error ea := by
      simp [ProgramGuide.pg_now, ha]
    have h5 : (c3.pg_date_radio area service d).2 = .error ea := by
      simp [ProgramGuideV3.pg_date_radio, ha]
    have h6 : (c3.pg_genre_radio area service genre d).2 = .error ea := by
      simp [ProgramGuideV3.pg_genre_radio, ha]
    have h7 : (c3.pg_now_radio area service).2 = .error ea := by
      simp [ProgramGuideV3.pg_now_radio, ha]
    have h8 : (c3.broadcast_event_radio area service program_id).2 =
        .error ea := by
      simp [ProgramGuideV3.broadcast_event_radio, ha]
    exact ⟨detect_error_shape _ _ _ ha,
      ⟨h1, issued_nil _ ea h1⟩, ⟨h2, issued_nil _ ea h2⟩,
      ⟨h3, issued_nil _ ea h3⟩, ⟨h4, issued_nil _ ea h4⟩,
      ⟨h5, issued_nil _ ea h5⟩, ⟨h6, issued_nil _ ea h6⟩,
      ⟨h7, issued_nil _ ea h7⟩, ⟨h8, issued_nil _ ea h8⟩⟩
  · intro a es ha hs
    have h1 : (c1.pg_list area service d).2 = .error es := by
      simp [ProgramGuide.pg_list, ha, hs]
    have h2 : (c1.pg_genre area service genre d).2 = .error es := by
      simp [ProgramGuide.pg_genre, ha, hs]
    have h3 : (c1.pg_info area service program_id).2 = .error es := by
      simp [ProgramGuide.pg_info, ha, hs]
    have h4 : (c1.pg_now area service).2 = .error es := by
      simp [ProgramGuide.pg_now, ha, hs]
    have h5 : (c3.pg_date_radio area service d).2 = .error es := by
      simp [ProgramGuideV3.pg_date_radio, ha, hs]
    have h6 : (c3.pg_genre_radio area service genre d).2 = .error es := by
      simp [ProgramGuideV3.pg_genre_radio, ha, hs]
    have h7 : (c3.pg_now_radio area service).2 = .error es := by
      simp [ProgramGuideV3.pg_now_radio, ha, hs]
    have h8 : (c3.broadcast_event_radio area service program_id).2 =
        .error es := by
      simp [ProgramGuideV3.broadcast_event_radio, ha, hs]
    exact ⟨detect_error_shape _ _ _ hs,
      ⟨h1, issued_nil _ es h1⟩, ⟨h2, issued_nil _ es h2⟩,
      ⟨h3, issued_nil _ es h3⟩, ⟨h4, issued_nil _ es h4⟩,
      ⟨h5, issued_nil _ es h5⟩, ⟨h6, issued_nil _ es h6⟩,
      ⟨h7, issued_nil _ es h7⟩, ⟨h8, issued_nil _ es h8⟩⟩
  · intro a s eg ha hs hg
    have h2 : (c1.pg_genre area service genre d).2 = .error eg := by
      simp [ProgramGuide.pg_genre, ha, hs, hg]
    have h6 : (c3.pg_genre_radio area service genre d).2 = .error eg := by
      simp [ProgramGuideV3.pg_genre_radio, ha, hs, hg]
    exact ⟨detect_error_shape _ _ _ hg,
      ⟨h2, issued_nil _ eg h2⟩, ⟨h6, issued_nil _ eg h6⟩⟩

/-- C5 witness: at the unresolvable area input `"zz"`, `pg_list` fails with
`UnknownIdentifier("area", "zz")` and `pg_date_radio` issues no request. -/
theorem resolution_failure_fails_fast_witness :
    ((ProgramGuide.default "K").pg_list "zz" "g1" ⟨2024, 1, 2⟩).2 =
      .error ⟨"area", "zz"⟩
    ∧ issuedRequests
        ((ProgramGuideV3.default "K").pg_date_radio "zz" "n1"
          ⟨2024, 1, 2⟩).2 = [] :=
  ⟨((resolution_failure_fails_fast (ProgramGuide.default "K")
      (ProgramGuideV3.default "K") "zz" "g1" "0000" "P" ⟨2024, 1, 2⟩).1
      ⟨"area", "zz"⟩ (by decide)).2.1.1,
   ((resolution_failure_fails_fast (ProgramGuide.default "K")
      (ProgramGuideV3.default "K") "zz" "n1" "0000" "P" ⟨2024, 1, 2⟩).1
      ⟨"area", "zz"⟩ (by decide)).2.2.2.2.2.1.2⟩

/-- C9: every client operation (V1 and V3) leaves the client's state
(`api_key`, `url_base`) unchanged — the call returns the very client it was
given — and issues exactly one outbound GET request when it succeeds. -/
theorem client_ops_pure_single_get (c1 : ProgramGuide) (c3 : ProgramGuideV3)
    (area service genre program_id : String) (d : Date) :
    ((c1.pg_list area service d).1 = c1
      ∧ (exceptOk (c1.pg_list area service d).2 = true →
          (issuedRequests (c1.pg_list area service d).2).length = 1))
    ∧ ((c1.pg_genre area service genre d).1 = c1
      ∧ (exceptOk (c1.pg_genre area service genre d).2 = true →
          (issuedRequests (c1.pg_genre area service genre d).2).length = 1))
    ∧ ((c1.pg_info area service program_id).1 = c1
      ∧ (exceptOk (c1.pg_info area service program_id).2 = true →
          (issuedRequests (c1.pg_info area service program_id).2).length = 1))
    ∧ ((c1.pg_now area service).1 = c1
      ∧ (exceptOk (c1.pg_now area service).2 = true →
          (issuedRequests (c1.pg_now area service).2).length = 1))
    ∧ ((c3.pg_date_radio area service d).1 = c3
      ∧ (exceptOk (c3.pg_date_radio area service d).2 = true →
          (issuedRequests (c3.pg_date_radio area service d).2).length = 1))
    ∧ ((c3.pg_genre_radio area service genre d).1 = c3
      ∧ (exceptOk (c3.pg_genre_radio area service genre d).2 = true →
          (issuedRequests (c3.pg_genre_radio area service genre d).2).length = 1))
    ∧ ((c3.pg_now_radio area service).1 = c3
      ∧ (exceptOk (c3.pg_now_radio area service).2 = true →
          (issuedRequests (c3.pg_now_radio area service).2).length = 1))
    ∧ ((c3.broadcast_event_radio area service program_id).1 = c3
      ∧ (exceptOk (c3.broadcast_event_radio area service program_id).2 = true →
          (issuedRequests
            (c3.broadcast_event_radio area service program_id).2).length = 1)) :=
  ⟨⟨rfl, fun h => issued_one _ h⟩, ⟨rfl, fun h => issued_one _ h⟩,
   ⟨rfl, fun h => issued_one _ h⟩, ⟨rfl, fun h => issued_one _ h⟩,
   ⟨rfl, fun h => issued_one _ h⟩, ⟨rfl, fun h => issued_one _ h⟩,
   ⟨rfl, fun h => issued_one _ h⟩, ⟨rfl, fun h => issued_one _ h⟩⟩

/-- C9 witness: a successful `pg_list` call leaves the client unchanged and
issues exactly one GET. -/
theorem client_ops_pure_single_get_witness :
    ((ProgramGuide.default "K").pg_list "130" "g1" ⟨2024, 1, 2⟩).1 =
      ProgramGuide.default "K"
    ∧ (issuedRequests
        ((ProgramGuide.default "K").pg_list "130" "g1"
          ⟨2024, 1, 2⟩).2).length = 1 :=
  ⟨(client_ops_pure_single_get (ProgramGuide.default "K")
      (ProgramGuideV3.default "K") "130" "g1" "0000" "P" ⟨2024, 1, 2⟩).1.1,
   (client_ops_pure_single_get (ProgramGuide.default "K")
      (ProgramGuideV3.default "K") "130" "g1" "0000" "P" ⟨2024, 1, 2⟩).1.2
      (by decide)⟩

/-- C7: for every code table whose codes are unique (the spec's CodeTable
invariant) and every entry `e` in it, `detect(table, e.code)` returns `e`:
resolving an entry's own canonical code round-trips to that entry. -/
theorem detect_code_roundtrip (t : CodeTable) (e : CodeEntry)
    (he : e ∈ t.entries)
    (huniq : ∀ e1 ∈ t.entries, ∀ e2 ∈ t.entries,
      e1.code = e2.code → e1 = e2) :
    t.detect e.code = .ok e := by
  have hfind : t.entries.find? (fun x => x.code == e.code) = some e :=
    find_eq_some_of_unique _ t.entries e he (by simp)
      (fun y hy hpy => huniq y hy e he (by simpa using hpy))
  simp [CodeTable.detect, hfind]

/-- C7 witness: the round-trip at the concrete Area table and code. -/
theorem detect_code_roundtrip_witness :
    AreaChoices.detect "130" = .ok ⟨"130", "Tokyo", ["東京"]⟩ :=
  detect_code_roundtrip AreaChoices ⟨"130", "Tokyo", ["東京"]⟩
    (by decide) (by decide)

/-- C6: resolver precedence.  First conjunct: if the input equals entry
`e`'s code (codes being unique per the CodeTable invariant), `detect`
returns `e`, regardless of any other entry whose name or alias also equals
the input.  Second conjunct: if the input is an alias of `e`, no entry's
code equals the input, and `e` is the only entry matching the input by name
or alias, then `detect` returns `e`. -/
theorem detect_precedence (t : CodeTable) (e : CodeEntry) (input : String) :
    (e ∈ t.entries → e.code = input →
      (∀ e1 ∈ t.entries, ∀ e2 ∈ t.entries, e1.code = e2.code → e1 = e2) →
      t.detect input = .ok e)
    ∧ (e ∈ t.entries → input ∈ e.aliases →
      (∀ x ∈ t.entries, x.code ≠ input) →
      (∀ x ∈ t.entries, matchesNameOrAlias x input = true → x = e) →
      t.detect input = .ok e) := by
  constructor
  · intro he hcode huniq
    have hfind : t.entries.find? (fun x => x.code == input) = some e :=
      find_eq_some_of_unique _ t.entries e he (by simp [hcode])
        (fun y hy hpy => huniq y hy e he (by simp at hpy; rw [hpy, hcode]))
    simp [CodeTable.detect, hfind]
  · intro he halias hnocode hmatch
    have hnone : t.entries.find? (fun x => x.code == input) = none :=
      List.find?_eq_none.mpr (fun x hx => by simpa using hnocode x hx)
    have hfind : t.entries.find? (fun x => matchesNameOrAlias x input) =
        some e :=
      find_eq_some_of_unique _ t.entries e he
        (by simp [matchesNameOrAlias]; exact Or.inr halias)
        (fun y hy hpy => hmatch y hy hpy)
    simp [CodeTable.detect, hnone, hfind]

/-- C6 witness: on `collisionTable`, the input `"g1"` is both the first
entry's code and the second entry's name, and resolves as the code; on the
Area table, the alias `東京` resolves to its entry. -/
theorem detect_precedence_witness :
    collisionTable.detect "g1" = .ok ⟨"g1", "General", []⟩
    ∧ AreaChoices.detect "東京" = .ok ⟨"130", "Tokyo", ["東京"]⟩ :=
  ⟨(detect_precedence collisionTable ⟨"g1", "General", []⟩ "g1").1
      (by decide) rfl (by decide),
   (detect_precedence AreaChoices ⟨"130", "Tokyo", ["東京"]⟩ "東京").2
      (by decide) (by decide) (by decide) (by decide)⟩
